import Mathlib

/-!
# Shallow embedding of `src/services/BrowserPool.js`

The pool manages opaque browser handles, modelled as natural-number ids.
Pool state mirrors the mutable fields of the `BrowserPool` class:

* `availableBrowsers` — JS array used as a stack (`push`/`pop` at the end);
* `busyBrowsers` — JS `Set` (insertion ordered, no duplicates), modelled as
  a `List Nat` with `setAdd` / `setDelete`;
* `waitingQueue` — JS array used as a FIFO queue (`push` at end, `shift`
  from front, `unshift` at front, `splice` for timeout removal);
* `idleTimeouts` — JS `Map` from browser to timer id
  ("Track timeout IDs for each browser" in the constructor);
* stats counters `created` / `reused` / `destroyed` / `errors`.

External effects are made explicit:

* `browser.isConnected()` is an external sample: each call site receives the
  observed boolean as a parameter (the spec itself notes the value may change
  between two checks, hence release re-verifies at handoff);
* `puppeteer.launch` may fail: creation sites take a success boolean;
* `browser.close()` may reject: destroy sites take a failure boolean;
* timers: `setTimeout` hands out fresh ids from `nextTimerId`; armed waiter
  timeouts live in `armedTimers`, armed per-browser idle timers in
  `pendingIdleChecks`; `clearTimeout` removes the id.

Observable events are recorded in trace fields (`createdTrace`,
`destroyedTrace`, `resolvedWaiters`, `rejectedWaiters`, `timedOutWaiters`) so
that statements like "every remaining worker has its destroy path invoked"
or "waiters are resolved in FIFO order" can be expressed.
-/

namespace BrowserPool

/-- A queued acquisition request: `{ resolve, reject, timeoutId }` in the JS
source. The `resolve` function identity is modelled by a fresh waiter id. -/
structure Waiter where
  id : Nat
  timeoutId : Nat
deriving Repr, DecidableEq

/-- The mutable state of a `BrowserPool` instance, plus explicit traces of
the externally observable events (promise resolutions, destroy attempts). -/
structure PoolState where
  maxPoolSize : Nat
  minPoolSize : Nat
  availableBrowsers : List Nat
  busyBrowsers : List Nat
  waitingQueue : List Waiter
  isShuttingDown : Bool
  idleTimeouts : List (Nat × Nat)
  pendingIdleChecks : List (Nat × Nat)
  armedTimers : List Nat
  created : Nat
  reused : Nat
  destroyed : Nat
  errors : Nat
  createdTrace : List Nat
  destroyedTrace : List Nat
  resolvedWaiters : List (Nat × Nat)
  rejectedWaiters : List Nat
  timedOutWaiters : List Nat
  nextBrowserId : Nat
  nextTimerId : Nat
  nextWaiterId : Nat
deriving Repr, DecidableEq

/-- A pool as built by the constructor: empty collections, zeroed stats. -/
def initState (maxP minP : Nat) : PoolState :=
  { maxPoolSize := maxP
    minPoolSize := minP
    availableBrowsers := []
    busyBrowsers := []
    waitingQueue := []
    isShuttingDown := false
    idleTimeouts := []
    pendingIdleChecks := []
    armedTimers := []
    created := 0
    reused := 0
    destroyed := 0
    errors := 0
    createdTrace := []
    destroyedTrace := []
    resolvedWaiters := []
    rejectedWaiters := []
    timedOutWaiters := []
    nextBrowserId := 0
    nextTimerId := 0
    nextWaiterId := 0 }

/-- JS `Set.add`: no-op when the element is already present, else append. -/
def setAdd (s : List Nat) (x : Nat) : List Nat :=
  if x ∈ s then s else s ++ [x]

/-- JS `Set.delete`: remove the element, keeping the order of the rest. -/
def setDelete (s : List Nat) (x : Nat) : List Nat :=
  s.filter (fun y => y ≠ x)

/-- JS `Map.get` on the association list `idleTimeouts`. -/
def mapLookup (m : List (Nat × Nat)) (k : Nat) : Option Nat :=
  (m.find? (fun p => p.1 = k)).map (fun p => p.2)

/-- JS `Map.delete` on the association list `idleTimeouts`. -/
def mapDelete (m : List (Nat × Nat)) (k : Nat) : List (Nat × Nat) :=
  m.filter (fun p => p.1 ≠ k)

/-- `_createBrowser()` (lines 251–275): on success a fresh handle is
launched, `stats.created` is incremented and the handle returned — the
function itself does NOT place the browser in any pool collection; on
failure `stats.errors` is incremented and the launch error propagates
(modelled as `none`). -/
def createBrowser (ok : Bool) (s : PoolState) : Option Nat × PoolState :=
  if ok then
    let b := s.nextBrowserId
    (some b,
      { s with
        created := s.created + 1
        nextBrowserId := b + 1
        createdTrace := s.createdTrace ++ [b] })
  else
    (none, { s with errors := s.errors + 1 })

/-- `_destroyBrowser(browser)` (lines 283–293): close the browser if it is
connected; `stats.destroyed` is incremented after a successful close (a
close rejection jumps to the catch block, skipping the increment); every
error is caught, so the destroy path never throws. `connD` is the sampled
`isConnected()` value, `closeFails` whether `close()` rejects. -/
def destroyBrowser (b : Nat) (connD closeFails : Bool) (s : PoolState) : PoolState :=
  if connD && closeFails then
    { s with destroyedTrace := s.destroyedTrace ++ [b] }
  else
    { s with
      destroyedTrace := s.destroyedTrace ++ [b]
      destroyed := s.destroyed + 1 }

/-- `initialize()` (lines 75–91), named `initializePool` here: launches
`minPoolSize` browsers in parallel through `_createBrowser()` and awaits
`Promise.all`. The resolved browser handles are discarded — no code path
adds them to `availableBrowsers` or `busyBrowsers`. The returned `Bool` is
`true` when every creation succeeded (`initialize` resolves) and `false`
when some creation failed (`Promise.all` rejects and the error is re-thrown). -/
def initializePool (createOks : Nat → Bool) (s : PoolState) : Bool × PoolState :=
  (List.range s.minPoolSize).foldl
    (fun acc i =>
      match createBrowser (createOks i) acc.2 with
      | (some _, s2) => (acc.1, s2)
      | (none, s2) => (false, s2))
    (true, s)

/-- `_scheduleIdleCheck(browser)` (lines 301–311): arms a `setTimeout` for
the browser. The timer id returned by `setTimeout` is discarded by the
source — in particular it is NOT stored in the `idleTimeouts` map. -/
def scheduleIdleCheck (b : Nat) (s : PoolState) : PoolState :=
  { s with
    pendingIdleChecks := s.pendingIdleChecks ++ [(s.nextTimerId, b)]
    nextTimerId := s.nextTimerId + 1 }

/-- Body of the `setTimeout` callback armed by `_scheduleIdleCheck`
(lines 302–310): when the timer fires, look the browser up in
`availableBrowsers` (`indexOf`); destroy it only if it is still there and
the pool is above `minPoolSize`. -/
def idleCheckFire (b : Nat) (connD closeFails : Bool) (s : PoolState) : PoolState :=
  let index := s.availableBrowsers.indexOf b
  if index < s.availableBrowsers.length ∧ s.minPoolSize < s.availableBrowsers.length then
    destroyBrowser b connD closeFails
      { s with availableBrowsers := s.availableBrowsers.eraseIdx index }
  else s

/-- Body of the waiter-timeout callback armed in `acquire()`
(lines 161–167): find this waiter's entry in `waitingQueue` (`findIndex` on
the `resolve` identity), `splice` it out if present, and reject the caller
with the timeout error. -/
def waiterTimeoutFire (wid : Nat) (s : PoolState) : PoolState :=
  let index := s.waitingQueue.findIdx (fun item => item.id = wid)
  if index < s.waitingQueue.length then
    { s with
      waitingQueue := s.waitingQueue.eraseIdx index
      timedOutWaiters := s.timedOutWaiters ++ [wid] }
  else
    { s with timedOutWaiters := s.timedOutWaiters ++ [wid] }

/-- Control point of one `acquire()` call. An async function runs
synchronously until its first `await`; the `await` points of `acquire()`
are the program counters here:

* `start` — about to run the synchronous prefix of `acquire()` (line 98);
* `closingDisconnected` — suspended at `await browser.close()` of a
  disconnected popped browser (line 117); resuming runs the recursive
  `return this.acquire()` (line 122);
* `destroyingDisconnected` — suspended at `await this._destroyBrowser`
  (line 137); resuming runs the recursive `return this.acquire()` (line 138);
* `creating` — suspended at `await this._createBrowser()` (line 145);
* `gotBrowser b` — the returned promise resolved with browser `b`;
* `queuedWait w` — a waiter was enqueued; the promise stays pending until
  `release()` resolves it or the timeout fires;
* `failedErr` — the returned promise rejected. -/
inductive TaskPC where
  | start
  | closingDisconnected
  | destroyingDisconnected
  | creating
  | gotBrowser (b : Nat)
  | queuedWait (w : Waiter)
  | failedErr
deriving Repr, DecidableEq

/-- The synchronous prefix of `acquire()` (lines 98–170), run from the entry
point up to the first suspension or return. `conn` is the external
`isConnected()` sample for each browser. -/
def acquireStartStep (conn : Nat → Bool) (s : PoolState) : TaskPC × PoolState :=
  if s.isShuttingDown then
    (.failedErr, s)
  else
    match s.availableBrowsers.getLast? with
    | some b =>
      let s1 := { s with availableBrowsers := s.availableBrowsers.dropLast }
      let s2 :=
        match mapLookup s1.idleTimeouts b with
        | some tid =>
          { s1 with
            pendingIdleChecks := s1.pendingIdleChecks.filter (fun p => p.1 ≠ tid)
            idleTimeouts := mapDelete s1.idleTimeouts b }
        | none => s1
      if conn b = false then
        (.closingDisconnected,
          { s2 with destroyedTrace := s2.destroyedTrace ++ [b] })
      else if conn b = true then
        (.gotBrowser b,
          { s2 with
            busyBrowsers := setAdd s2.busyBrowsers b
            reused := s2.reused + 1 })
      else
        (.destroyingDisconnected, destroyBrowser b (conn b) false s2)
    | none =>
      if s.busyBrowsers.length + s.availableBrowsers.length < s.maxPoolSize then
        (.creating, s)
      else
        let w : Waiter := { id := s.nextWaiterId, timeoutId := s.nextTimerId }
        (.queuedWait w,
          { s with
            nextWaiterId := s.nextWaiterId + 1
            nextTimerId := s.nextTimerId + 1
            armedTimers := s.armedTimers ++ [w.timeoutId]
            waitingQueue := s.waitingQueue ++ [w] })

/-- One event-loop step of an `acquire()` task: run from its current
suspension point to the next one. Resuming `closingDisconnected` or
`destroyingDisconnected` re-enters `acquire()` (the recursive retry);
resuming `creating` applies the outcome of `_createBrowser()`: on success
the new browser is added to `busyBrowsers` and returned (lines 145–151), on
failure the wrapped error is thrown (lines 152–155). -/
def stepTask (conn : Nat → Bool) (createOk : Bool) :
    TaskPC → PoolState → TaskPC × PoolState
  | .start, s => acquireStartStep conn s
  | .closingDisconnected, s => acquireStartStep conn s
  | .destroyingDisconnected, s => acquireStartStep conn s
  | .creating, s =>
    match createBrowser createOk s with
    | (some b, s1) => (.gotBrowser b, { s1 with busyBrowsers := setAdd s1.busyBrowsers b })
    | (none, s1) => (.failedErr, s1)
  | pc, s => (pc, s)

/-- Drive a single `acquire()` task to completion (fuel-bounded: each
retry of the disconnected-browser loop consumes one popped browser, so
`2 * availableBrowsers.length + 3` steps always suffice). -/
def runAcquire (conn : Nat → Bool) (createOk : Bool) :
    Nat → TaskPC → PoolState → TaskPC × PoolState
  | 0, pc, s => (pc, s)
  | fuel + 1, pc, s =>
    match pc with
    | .start =>
      let r := stepTask conn createOk .start s
      runAcquire conn createOk fuel r.1 r.2
    | .closingDisconnected =>
      let r := stepTask conn createOk .closingDisconnected s
      runAcquire conn createOk fuel r.1 r.2
    | .destroyingDisconnected =>
      let r := stepTask conn createOk .destroyingDisconnected s
      runAcquire conn createOk fuel r.1 r.2
    | .creating =>
      let r := stepTask conn createOk .creating s
      runAcquire conn createOk fuel r.1 r.2
    | pc => (pc, s)

/-- `acquire()` as observed by a caller running it with no interleaved pool
operations: the task machine driven to completion. -/
def acquire (conn : Nat → Bool) (createOk : Bool) (s : PoolState) :
    TaskPC × PoolState :=
  runAcquire conn createOk (2 * s.availableBrowsers.length + 3) .start s

/-- JS `clearTimeout(tid)`: disarm the timer with that id (no-op when the
timer is not armed). -/
def clearTimer (armed : List Nat) (tid : Nat) : List Nat :=
  armed.filter (fun t => t ≠ tid)

/-- `release(browser)` (lines 178–243). Parameters record the external
samples, in source order: `conn1` is `isConnected()` at the crash check
(line 188), `conn2` is `isConnected()` at the handoff re-check (line 204),
`connD` and `closeFails` feed the `_destroyBrowser` call of the
disconnected-handoff branch, and `createOk` the replacement
`_createBrowser()` (line 219). -/
def release (browser : Option Nat) (conn1 conn2 connD closeFails createOk : Bool)
    (s : PoolState) : PoolState :=
  match browser with
  | none => s
  | some b =>
    let s1 := { s with busyBrowsers := setDelete s.busyBrowsers b }
    if conn1 = false then
      { s1 with destroyedTrace := s1.destroyedTrace ++ [b] }
    else
      match s1.waitingQueue with
      | w :: rest =>
        let s2 :=
          { s1 with
            waitingQueue := rest
            armedTimers := clearTimer s1.armedTimers w.timeoutId }
        if conn2 = true then
          { s2 with
            busyBrowsers := setAdd s2.busyBrowsers b
            resolvedWaiters := s2.resolvedWaiters ++ [(w.id, b)] }
        else
          let s3 := destroyBrowser b connD closeFails s2
          let s4 := { s3 with waitingQueue := w :: s3.waitingQueue }
          match createBrowser createOk s4 with
          | (some nb, s5) =>
            match s5.waitingQueue with
            | nw :: rest2 =>
              { s5 with
                waitingQueue := rest2
                armedTimers := clearTimer s5.armedTimers nw.timeoutId
                busyBrowsers := setAdd s5.busyBrowsers nb
                resolvedWaiters := s5.resolvedWaiters ++ [(nw.id, nb)] }
            | [] => s5
          | (none, s5) => s5
      | [] =>
        scheduleIdleCheck b
          { s1 with availableBrowsers := s1.availableBrowsers ++ [b] }

/-- The destroy loop of `shutdown()` (lines 385–393): `_destroyBrowser` on
every handle of `[...availableBrowsers, ...busyBrowsers]`; the promises are
awaited with `Promise.allSettled`, so each attempt runs to completion
regardless of the other attempts failing. `connD`/`closeFails` give the
external samples per browser. -/
def destroyAll (connD closeFails : Nat → Bool) (l : List Nat) (s : PoolState) :
    PoolState :=
  l.foldl (fun acc b => destroyBrowser b (connD b) (closeFails b) acc) s

/-- `shutdown(options)` (lines 348–400): set the draining flag, stop the
periodic sweep, reject and clear every queued waiter (clearing each timer),
optionally wait the grace period (the `onGracePeriodStart` callback error is
caught), destroy every handle in `availableBrowsers ++ busyBrowsers` via
`Promise.allSettled`, then clear both collections. Every internal failure
is caught, so the function is total — `shutdown` never rejects. -/
def shutdown (connD closeFails : Nat → Bool) (s : PoolState) : PoolState :=
  let s1 := { s with isShuttingDown := true }
  let s2 :=
    { s1 with
      armedTimers := s1.waitingQueue.foldl (fun acc w => clearTimer acc w.timeoutId) s1.armedTimers
      rejectedWaiters := s1.rejectedWaiters ++ s1.waitingQueue.map (fun w => w.id)
      waitingQueue := [] }
  let s3 := destroyAll connD closeFails (s2.availableBrowsers ++ s2.busyBrowsers) s2
  { s3 with availableBrowsers := [], busyBrowsers := [] }

/-- A set of concurrently running `acquire()` calls over one shared pool:
the event-loop interleaving model. Each task is at some suspension point;
the scheduler picks which task runs next. -/
structure Config where
  pool : PoolState
  tasks : List TaskPC
deriving Repr, DecidableEq

/-- Run one event-loop step of task `i` (no-op for an index out of range or
a finished task). -/
def stepConfig (conn : Nat → Bool) (createOk : Bool) (i : Nat) (c : Config) :
    Config :=
  match c.tasks.get? i with
  | some pc =>
    let r := stepTask conn createOk pc c.pool
    { pool := r.2, tasks := c.tasks.set i r.1 }
  | none => c

/-- Run a whole schedule: the list names, in order, which task the event
loop resumes at each step. -/
def runSched (conn : Nat → Bool) (createOk : Bool) (c : Config)
    (sched : List Nat) : Config :=
  sched.foldl (fun acc i => stepConfig conn createOk i acc) c

/-! ## Helper lemmas -/

theorem createBrowser_availableBrowsers (ok : Bool) (s : PoolState) :
    (createBrowser ok s).2.availableBrowsers = s.availableBrowsers := by
  cases ok <;> simp [createBrowser]

theorem createBrowser_busyBrowsers (ok : Bool) (s : PoolState) :
    (createBrowser ok s).2.busyBrowsers = s.busyBrowsers := by
  cases ok <;> simp [createBrowser]

theorem initFold_availableBrowsers (createOks : Nat → Bool) :
    ∀ (l : List Nat) (acc : Bool × PoolState),
      ((l.foldl
        (fun acc i =>
          match createBrowser (createOks i) acc.2 with
          | (some _, s2) => (acc.1, s2)
          | (none, s2) => (false, s2))
        acc).2.availableBrowsers) = acc.2.availableBrowsers := by
  intro l
  induction l with
  | nil => intro acc; rfl
  | cons a t ih =>
    intro acc
    rcases h : createBrowser (createOks a) acc.2 with ⟨ob, s2⟩
    have hav : s2.availableBrowsers = acc.2.availableBrowsers := by
      have := createBrowser_availableBrowsers (createOks a) acc.2
      rw [h] at this
      exact this
    cases ob <;> simp [List.foldl_cons, h, ih, hav]

theorem initFold_busyBrowsers (createOks : Nat → Bool) :
    ∀ (l : List Nat) (acc : Bool × PoolState),
      ((l.foldl
        (fun acc i =>
          match createBrowser (createOks i) acc.2 with
          | (some _, s2) => (acc.1, s2)
          | (none, s2) => (false, s2))
        acc).2.busyBrowsers) = acc.2.busyBrowsers := by
  intro l
  induction l with
  | nil => intro acc; rfl
  | cons a t ih =>
    intro acc
    rcases h : createBrowser (createOks a) acc.2 with ⟨ob, s2⟩
    have hbu : s2.busyBrowsers = acc.2.busyBrowsers := by
      have := createBrowser_busyBrowsers (createOks a) acc.2
      rw [h] at this
      exact this
    cases ob <;> simp [List.foldl_cons, h, ih, hbu]

theorem destroyBrowser_destroyedTrace (b : Nat) (cD cF : Bool) (s : PoolState) :
    (destroyBrowser b cD cF s).destroyedTrace = s.destroyedTrace ++ [b] := by
  by_cases h : (cD && cF) = true <;> simp [destroyBrowser, h]

theorem destroyAll_destroyedTrace (connD closeFails : Nat → Bool) :
    ∀ (l : List Nat) (s : PoolState),
      (destroyAll connD closeFails l s).destroyedTrace = s.destroyedTrace ++ l := by
  intro l
  induction l with
  | nil => intro s; simp [destroyAll]
  | cons a t ih =>
    intro s
    have step := destroyBrowser_destroyedTrace a (connD a) (closeFails a) s
    simp [destroyAll, List.foldl_cons] at ih ⊢
    rw [ih, step]
    simp

theorem destroyBrowser_availableBrowsers (b : Nat) (cD cF : Bool) (s : PoolState) :
    (destroyBrowser b cD cF s).availableBrowsers = s.availableBrowsers := by
  by_cases h : (cD && cF) = true <;> simp [destroyBrowser, h]

theorem destroyBrowser_busyBrowsers (b : Nat) (cD cF : Bool) (s : PoolState) :
    (destroyBrowser b cD cF s).busyBrowsers = s.busyBrowsers := by
  by_cases h : (cD && cF) = true <;> simp [destroyBrowser, h]

theorem runAcquire_gotBrowser (conn : Nat → Bool) (ok : Bool) (fuel b : Nat)
    (s : PoolState) :
    runAcquire conn ok fuel (.gotBrowser b) s = (.gotBrowser b, s) := by
  cases fuel <;> rfl

theorem runAcquire_queuedWait (conn : Nat → Bool) (ok : Bool) (fuel : Nat)
    (w : Waiter) (s : PoolState) :
    runAcquire conn ok fuel (.queuedWait w) s = (.queuedWait w, s) := by
  cases fuel <;> rfl

theorem runAcquire_start_succ (conn : Nat → Bool) (ok : Bool) (fuel : Nat)
    (s : PoolState) :
    runAcquire conn ok (fuel + 1) .start s =
      runAcquire conn ok fuel (acquireStartStep conn s).1 (acquireStartStep conn s).2 := by
  rfl

theorem findIdx_append_middle {α : Type} (p : α → Bool) :
    ∀ (front : List α) (w : α) (back : List α),
      (∀ x ∈ front, p x = false) → p w = true →
      (front ++ w :: back).findIdx p = front.length := by
  intro front
  induction front with
  | nil =>
    intro w back _ hw
    simp [List.findIdx_cons, hw]
  | cons a t ih =>
    intro w back hf hw
    have ha : p a = false := hf a (by simp)
    have ht : ∀ x ∈ t, p x = false := fun x hx => hf x (by simp [hx])
    simp [List.findIdx_cons, ha, ih w back ht hw]

theorem eraseIdx_append_middle {α : Type} :
    ∀ (front : List α) (w : α) (back : List α),
      (front ++ w :: back).eraseIdx front.length = front ++ back := by
  intro front
  induction front with
  | nil => intro w back; rfl
  | cons a t ih => intro w back; simp [List.eraseIdx, ih]

theorem destroyBrowser_waitingQueue (b : Nat) (cD cF : Bool) (s : PoolState) :
    (destroyBrowser b cD cF s).waitingQueue = s.waitingQueue := by
  by_cases h : (cD && cF) = true <;> simp [destroyBrowser, h]

theorem destroyAll_waitingQueue (connD closeFails : Nat → Bool) :
    ∀ (l : List Nat) (s : PoolState),
      (destroyAll connD closeFails l s).waitingQueue = s.waitingQueue := by
  intro l
  induction l with
  | nil => intro s; rfl
  | cons a t ih =>
    intro s
    simp [destroyAll, List.foldl_cons] at ih ⊢
    rw [ih, destroyBrowser_waitingQueue]

theorem acquireStartStep_concat (conn : Nat → Bool) (s : PoolState)
    (A : List Nat) (w : Nat) (hsd : s.isShuttingDown = false)
    (hA : s.availableBrowsers = A ++ [w]) (hcw : conn w = true) :
    (acquireStartStep conn s).1 = TaskPC.gotBrowser w ∧
    (acquireStartStep conn s).2.created = s.created ∧
    (acquireStartStep conn s).2.createdTrace = s.createdTrace := by
  cases hml : mapLookup s.idleTimeouts w with
  | none =>
    simp [acquireStartStep, hsd, hA, List.getLast?_concat, List.dropLast_concat, hml, hcw]
  | some tid =>
    simp [acquireStartStep, hsd, hA, List.getLast?_concat, List.dropLast_concat, hml, hcw]

theorem release_no_waiter_availableBrowsers (s : PoolState) (w : Nat)
    (cD cF cO : Bool) (hwq : s.waitingQueue = []) :
    (release (some w) true true cD cF cO s).availableBrowsers
      = s.availableBrowsers ++ [w] := by
  simp [release, hwq, scheduleIdleCheck]

theorem release_no_waiter_isShuttingDown (s : PoolState) (w : Nat)
    (cD cF cO : Bool) (hwq : s.waitingQueue = []) :
    (release (some w) true true cD cF cO s).isShuttingDown = s.isShuttingDown := by
  simp [release, hwq, scheduleIdleCheck]

/-! ## Claim theorems -/

/-- C1: the claimed invariant `availableBrowsers.length + busyBrowsers.size ≤
maxPoolSize` fails under interleaving, because `acquire()` does NOT reserve
the capacity slot before suspending at `await this._createBrowser()`
(line 145): the new browser joins `busyBrowsers` only after creation
resolves (line 146). Two concurrent `acquire()` calls against an empty pool
with `maxPoolSize = 1` both pass the capacity check of line 143, both
create, and the pool ends with 2 live busy browsers. The schedule
`[0, 1, 0, 1]` runs each task's synchronous prefix, then resumes each
creation. -/
theorem concurrent_acquire_exceeds_maxPoolSize :
    (runSched (fun _ => true) true
        { pool := initState 1 1, tasks := [TaskPC.start, TaskPC.start] }
        [0, 1, 0, 1]).tasks = [TaskPC.gotBrowser 0, TaskPC.gotBrowser 1] ∧
    (runSched (fun _ => true) true
        { pool := initState 1 1, tasks := [TaskPC.start, TaskPC.start] }
        [0, 1, 0, 1]).pool.busyBrowsers = [0, 1] ∧
    (runSched (fun _ => true) true
        { pool := initState 1 1, tasks := [TaskPC.start, TaskPC.start] }
        [0, 1, 0, 1]).pool.maxPoolSize <
      (runSched (fun _ => true) true
          { pool := initState 1 1, tasks := [TaskPC.start, TaskPC.start] }
          [0, 1, 0, 1]).pool.availableBrowsers.length +
        (runSched (fun _ => true) true
            { pool := initState 1 1, tasks := [TaskPC.start, TaskPC.start] }
            [0, 1, 0, 1]).pool.busyBrowsers.length := by
  decide

/-- C2: `initialize()` runs `minPoolSize` parallel `_createBrowser()` calls
but discards every resolved handle: no execution path places them in
`availableBrowsers` (first conjunct: for every creation oracle and state,
`availableBrowsers` and `busyBrowsers` are unchanged). Concretely, on a
fresh pool with `minPoolSize = 1`, initialization resolves successfully,
one browser was created, and `availableBrowsers` is still empty — contrary
to the claim that the pre-warmed workers end up in `available`. -/
theorem initializePool_leaves_available_empty :
    (∀ (createOks : Nat → Bool) (s : PoolState),
      (initializePool createOks s).2.availableBrowsers = s.availableBrowsers ∧
      (initializePool createOks s).2.busyBrowsers = s.busyBrowsers) ∧
    ((initializePool (fun _ => true) (initState 3 1)).1 = true ∧
      (initializePool (fun _ => true) (initState 3 1)).2.created = 1 ∧
      (initializePool (fun _ => true) (initState 3 1)).2.availableBrowsers = []) := by
  constructor
  · intro createOks s
    constructor
    · show ((List.range s.minPoolSize).foldl _ (true, s)).2.availableBrowsers = _
      exact initFold_availableBrowsers createOks (List.range s.minPoolSize) (true, s)
    · show ((List.range s.minPoolSize).foldl _ (true, s)).2.busyBrowsers = _
      exact initFold_busyBrowsers createOks (List.range s.minPoolSize) (true, s)
  · decide

/-- C3: in the disconnected-handoff branch of `release()`, the head
waiter's timeout was already cleared by `clearTimeout(timeoutId)` at
line 201, and the waiter is re-queued (line 215) with that same dead timer
id — no new timeout is armed. The positive parts of the claim hold (the
worker is destroyed, the waiter is back at the front of `waitingQueue`,
and a replacement creation was attempted: `stats.errors` grew), but after
the failed creation the waiter's timer is no longer armed, so the
"rejected by its own pending acquisition timeout" escape can never fire —
contrary to the claim and to the source's own comment at line 227
("the waiter will timeout naturally"). -/
theorem requeued_waiter_timeout_disarmed :
    (release (some 7) true false false false false
        { initState 1 1 with
          busyBrowsers := [7]
          waitingQueue := [{ id := 0, timeoutId := 5 }]
          armedTimers := [5] }).waitingQueue = [{ id := 0, timeoutId := 5 }] ∧
    (release (some 7) true false false false false
        { initState 1 1 with
          busyBrowsers := [7]
          waitingQueue := [{ id := 0, timeoutId := 5 }]
          armedTimers := [5] }).destroyedTrace = [7] ∧
    (release (some 7) true false false false false
        { initState 1 1 with
          busyBrowsers := [7]
          waitingQueue := [{ id := 0, timeoutId := 5 }]
          armedTimers := [5] }).errors = 1 ∧
    (release (some 7) true false false false false
        { initState 1 1 with
          busyBrowsers := [7]
          waitingQueue := [{ id := 0, timeoutId := 5 }]
          armedTimers := [5] }).armedTimers = [] := by
  decide

/-- C4: after `initialize()` on a fresh pool with `minPoolSize = 1`, browser
`0` has been created (it exists: it is in the created trace and was never
destroyed), yet it belongs to neither `availableBrowsers` nor
`busyBrowsers` — `initialize()` drops the handles it creates, violating
"every worker owned by the pool is in exactly one of the collections". -/
theorem initialized_worker_in_neither_collection :
    (initializePool (fun _ => true) (initState 3 1)).2.createdTrace = [0] ∧
    (initializePool (fun _ => true) (initState 3 1)).2.destroyedTrace = [] ∧
    0 ∉ (initializePool (fun _ => true) (initState 3 1)).2.availableBrowsers ∧
    0 ∉ (initializePool (fun _ => true) (initState 3 1)).2.busyBrowsers := by
  decide

/-- C5: `release()` of a connected worker that is not tracked in `busy`
does not throw (the model is a total function), but it DOES corrupt pool
state: the worker is pushed onto `availableBrowsers` unconditionally
(line 235). Releasing a worker that is already sitting in `available`
(a second release of the same worker) duplicates it, and releasing a
foreign handle the pool never owned adopts it into `available` — contrary
to "the pool collections contain no duplicate entries and no worker the
pool does not own". -/
theorem release_untracked_corrupts_available :
    (release (some 4) true true false false true
        { initState 2 1 with availableBrowsers := [4] }).availableBrowsers
      = [4, 4] ∧
    (release (some 9) true true false false true
        (initState 2 1)).availableBrowsers = [9] := by
  decide

theorem release_handoff_serves_head (s : PoolState) (b : Nat) (w : Waiter)
    (rest : List Waiter) (cD cF cO : Bool) (hq : s.waitingQueue = w :: rest) :
    (release (some b) true true cD cF cO s).waitingQueue = rest ∧
    (release (some b) true true cD cF cO s).resolvedWaiters
      = s.resolvedWaiters ++ [(w.id, b)] ∧
    (release (some b) true true cD cF cO s).availableBrowsers
      = s.availableBrowsers := by
  simp [release, hq]

theorem release_replacement_serves_head (s : PoolState) (b : Nat) (w : Waiter)
    (rest : List Waiter) (cD cF : Bool) (hq : s.waitingQueue = w :: rest) :
    (release (some b) true false cD cF true s).waitingQueue = rest ∧
    (release (some b) true false cD cF true s).resolvedWaiters
      = s.resolvedWaiters ++ [(w.id, s.nextBrowserId)] ∧
    (release (some b) true false cD cF true s).availableBrowsers
      = s.availableBrowsers := by
  by_cases h : (cD && cF) = true <;>
    simp [release, hq, destroyBrowser, createBrowser, h]

theorem acquire_saturated_enqueues_at_tail (conn : Nat → Bool) (cO : Bool)
    (s : PoolState) (hsd : s.isShuttingDown = false)
    (hav : s.availableBrowsers = [])
    (hfull : s.maxPoolSize ≤ s.busyBrowsers.length) :
    (acquire conn cO s).1
      = TaskPC.queuedWait { id := s.nextWaiterId, timeoutId := s.nextTimerId } ∧
    (acquire conn cO s).2.waitingQueue
      = s.waitingQueue ++ [{ id := s.nextWaiterId, timeoutId := s.nextTimerId }] := by
  have hcap : ¬ (s.busyBrowsers.length + s.availableBrowsers.length < s.maxPoolSize) := by
    rw [hav]
    simp only [List.length_nil, Nat.add_zero, Nat.not_lt]
    exact hfull
  have hstep : acquireStartStep conn s
      = (TaskPC.queuedWait { id := s.nextWaiterId, timeoutId := s.nextTimerId },
        { s with
          nextWaiterId := s.nextWaiterId + 1
          nextTimerId := s.nextTimerId + 1
          armedTimers := s.armedTimers ++ [s.nextTimerId]
          waitingQueue := s.waitingQueue
            ++ [{ id := s.nextWaiterId, timeoutId := s.nextTimerId }] }) := by
    simp only [acquireStartStep, hsd, hav, Bool.false_eq_true, if_false,
      List.getLast?_nil]
    rw [if_neg]
    simp only [List.length_nil, Nat.add_zero, Nat.not_lt]
    exact hfull
  have hfuel : 2 * s.availableBrowsers.length + 3
      = (2 * s.availableBrowsers.length + 2) + 1 := by omega
  constructor
  · show (runAcquire conn cO (2 * s.availableBrowsers.length + 3) .start s).1 = _
    rw [hfuel, runAcquire_start_succ, hstep, runAcquire_queuedWait]
  · show (runAcquire conn cO (2 * s.availableBrowsers.length + 3) .start s).2.waitingQueue = _
    rw [hfuel, runAcquire_start_succ, hstep, runAcquire_queuedWait]

theorem waiterTimeoutFire_removes_only_own (s : PoolState) (w : Waiter)
    (front back : List Waiter) (hq : s.waitingQueue = front ++ w :: back)
    (hf : ∀ x ∈ front, x.id ≠ w.id) :
    (waiterTimeoutFire w.id s).waitingQueue = front ++ back := by
  have hp : ∀ x ∈ front, (decide (x.id = w.id)) = false := by
    intro x hx
    simp [hf x hx]
  have hfind : (front ++ w :: back).findIdx (fun item => decide (item.id = w.id))
      = front.length :=
    findIdx_append_middle _ front w back hp (by simp)
  have hlt : front.length < (front ++ w :: back).length := by
    simp
  simp only [waiterTimeoutFire, hq, hfind, hlt, if_pos, eraseIdx_append_middle]

/-- C6: the wait queue is FIFO. (i) A direct handoff on `release()` serves
the waiter at the head of `waitingQueue` (`shift`, line 200), resolving it
with the released worker, and does not touch `availableBrowsers` (no
replenishing before the queue is served). (ii) The replacement path (worker
found dead at handoff) also resolves that same head waiter, with the freshly
created browser. (iii) A saturated `acquire()` enqueues its waiter at the
tail (`push`, line 169). (iv) The waiter-timeout callback removes exactly
its own entry (`findIndex` + `splice`, lines 162–165), preserving the
relative order of all other queued waiters. -/
theorem waiting_queue_fifo :
    (∀ (s : PoolState) (b : Nat) (w : Waiter) (rest : List Waiter) (cD cF cO : Bool),
      s.waitingQueue = w :: rest →
      (release (some b) true true cD cF cO s).waitingQueue = rest ∧
      (release (some b) true true cD cF cO s).resolvedWaiters
        = s.resolvedWaiters ++ [(w.id, b)] ∧
      (release (some b) true true cD cF cO s).availableBrowsers
        = s.availableBrowsers) ∧
    (∀ (s : PoolState) (b : Nat) (w : Waiter) (rest : List Waiter) (cD cF : Bool),
      s.waitingQueue = w :: rest →
      (release (some b) true false cD cF true s).waitingQueue = rest ∧
      (release (some b) true false cD cF true s).resolvedWaiters
        = s.resolvedWaiters ++ [(w.id, s.nextBrowserId)] ∧
      (release (some b) true false cD cF true s).availableBrowsers
        = s.availableBrowsers) ∧
    (∀ (conn : Nat → Bool) (cO : Bool) (s : PoolState),
      s.isShuttingDown = false → s.availableBrowsers = [] →
      s.maxPoolSize ≤ s.busyBrowsers.length →
      (acquire conn cO s).2.waitingQueue
        = s.waitingQueue ++ [{ id := s.nextWaiterId, timeoutId := s.nextTimerId }]) ∧
    (∀ (s : PoolState) (w : Waiter) (front back : List Waiter),
      s.waitingQueue = front ++ w :: back → (∀ x ∈ front, x.id ≠ w.id) →
      (waiterTimeoutFire w.id s).waitingQueue = front ++ back) :=
  ⟨release_handoff_serves_head,
   release_replacement_serves_head,
   fun conn cO s hsd hav hfull =>
     (acquire_saturated_enqueues_at_tail conn cO s hsd hav hfull).2,
   waiterTimeoutFire_removes_only_own⟩

/-- Concrete pool used to witness the FIFO theorem: two busy workers and
three queued waiters. -/
def fifoDemoState : PoolState :=
  { initState 2 1 with
    busyBrowsers := [0, 1]
    waitingQueue :=
      [{ id := 0, timeoutId := 2 }, { id := 1, timeoutId := 3 },
        { id := 2, timeoutId := 4 }]
    armedTimers := [2, 3, 4] }

/-- C6 witness: on the concrete pool, releasing worker `0` resolves the
first queued waiter with it and leaves the other two in order; firing the
middle waiter's timeout removes only that waiter. -/
theorem waiting_queue_fifo_witness :
    ((release (some 0) true true false false true fifoDemoState).waitingQueue
        = [{ id := 1, timeoutId := 3 }, { id := 2, timeoutId := 4 }] ∧
      (release (some 0) true true false false true fifoDemoState).resolvedWaiters
        = [(0, 0)]) ∧
    (waiterTimeoutFire 1 fifoDemoState).waitingQueue
      = [{ id := 0, timeoutId := 2 }, { id := 2, timeoutId := 4 }] :=
  ⟨⟨(waiting_queue_fifo.1 fifoDemoState 0 { id := 0, timeoutId := 2 }
        [{ id := 1, timeoutId := 3 }, { id := 2, timeoutId := 4 }]
        false false true rfl).1,
    (waiting_queue_fifo.1 fifoDemoState 0 { id := 0, timeoutId := 2 }
        [{ id := 1, timeoutId := 3 }, { id := 2, timeoutId := 4 }]
        false false true rfl).2.1⟩,
   waiting_queue_fifo.2.2.2 fifoDemoState { id := 1, timeoutId := 3 }
     [{ id := 0, timeoutId := 2 }] [{ id := 2, timeoutId := 4 }] rfl
     (by decide)⟩

/-- C7: `shutdown()` is a total function of the pool state and the external
oracles — every internal failure (waiter rejection, grace-period callback,
`close()` rejection) is caught, so it never rejects. For every state and
every pattern of destroy failures it invokes the destroy path once for each
worker of `availableBrowsers ++ busyBrowsers` (failing destroys do not
abort the others: the trace grows by exactly that list regardless of the
`closeFails` oracle), and on return `availableBrowsers`, `busyBrowsers`
and `waitingQueue` are all empty. -/
theorem shutdown_destroys_all_and_clears :
    ∀ (connD closeFails : Nat → Bool) (s : PoolState),
      (shutdown connD closeFails s).availableBrowsers = [] ∧
      (shutdown connD closeFails s).busyBrowsers = [] ∧
      (shutdown connD closeFails s).waitingQueue = [] ∧
      (shutdown connD closeFails s).destroyedTrace
        = s.destroyedTrace ++ (s.availableBrowsers ++ s.busyBrowsers) := by
  intro connD closeFails s
  refine ⟨rfl, rfl, ?_, ?_⟩
  · show (destroyAll connD closeFails _ _).waitingQueue = []
    rw [destroyAll_waitingQueue]
  · show (destroyAll connD closeFails _ _).destroyedTrace = _
    rw [destroyAll_destroyedTrace]

/-- C8: after `release(w)` of a connected worker on a pool with no queued
waiters, the next `acquire()` pops that same worker `w` from the top of the
`availableBrowsers` stack (LIFO `push`/`pop`) and returns it without
invoking `_createBrowser()` again: the `created` counter and the creation
trace are unchanged by the second acquire. -/
theorem acquire_after_release_returns_same_worker :
    ∀ (s : PoolState) (w : Nat) (conn : Nat → Bool) (cD cF cO cO2 : Bool),
      s.isShuttingDown = false → s.waitingQueue = [] → conn w = true →
      (acquire conn cO2 (release (some w) true true cD cF cO s)).1
        = TaskPC.gotBrowser w ∧
      (acquire conn cO2 (release (some w) true true cD cF cO s)).2.created
        = (release (some w) true true cD cF cO s).created ∧
      (acquire conn cO2 (release (some w) true true cD cF cO s)).2.createdTrace
        = (release (some w) true true cD cF cO s).createdTrace := by
  intro s w conn cD cF cO cO2 hsd hwq hcw
  have hRav := release_no_waiter_availableBrowsers s w cD cF cO hwq
  have hRsd : (release (some w) true true cD cF cO s).isShuttingDown = false := by
    rw [release_no_waiter_isShuttingDown s w cD cF cO hwq, hsd]
  have hstep := acquireStartStep_concat conn (release (some w) true true cD cF cO s)
    s.availableBrowsers w hRsd hRav hcw
  have hfuel : 2 * (release (some w) true true cD cF cO s).availableBrowsers.length + 3
      = (2 * (release (some w) true true cD cF cO s).availableBrowsers.length + 2) + 1 := by
    omega
  rcases hpair : acquireStartStep conn (release (some w) true true cD cF cO s) with ⟨pc, s2⟩
  rw [hpair] at hstep
  have hpc : pc = TaskPC.gotBrowser w := hstep.1
  refine ⟨?_, ?_, ?_⟩
  · show (runAcquire conn cO2 _ .start _).1 = _
    rw [hfuel, runAcquire_start_succ, hpair, hpc]
    rw [runAcquire_gotBrowser]
  · show (runAcquire conn cO2 _ .start _).2.created = _
    rw [hfuel, runAcquire_start_succ, hpair, hpc, runAcquire_gotBrowser]
    exact hstep.2.1
  · show (runAcquire conn cO2 _ .start _).2.createdTrace = _
    rw [hfuel, runAcquire_start_succ, hpair, hpc, runAcquire_gotBrowser]
    exact hstep.2.2

/-- C8 witness: a pool whose only worker `5` is busy; releasing and
re-acquiring returns `5` itself with the creation statistics untouched. -/
theorem acquire_after_release_witness :
    (acquire (fun _ => true) true
        (release (some 5) true true false false true
          { initState 3 1 with busyBrowsers := [5] })).1
      = TaskPC.gotBrowser 5 ∧
    (acquire (fun _ => true) true
        (release (some 5) true true false false true
          { initState 3 1 with busyBrowsers := [5] })).2.created
      = (release (some 5) true true false false true
          { initState 3 1 with busyBrowsers := [5] }).created :=
  ⟨(acquire_after_release_returns_same_worker
      { initState 3 1 with busyBrowsers := [5] } 5 (fun _ => true)
      false false true true rfl rfl rfl).1,
   (acquire_after_release_returns_same_worker
      { initState 3 1 with busyBrowsers := [5] } 5 (fun _ => true)
      false false true true rfl rfl rfl).2.1⟩

/-- C9: the idle timer of a worker popped from `availableBrowsers` by
`acquire()` is NOT cancelled. `_scheduleIdleCheck` discards the id returned
by `setTimeout` and never writes the `idleTimeouts` map (first conjunct),
so the cancellation branch of `acquire()` (lines 108–111), which is guarded
by `idleTimeouts.has(browser)`, never runs. Concretely: release worker `5`
(arming idle timer `0` for it), re-acquire it — the acquire returns `5`,
yet timer `(0, 5)` is still armed afterwards and `idleTimeouts` was empty
throughout — contrary to "no idle timer for that worker remains armed
after it is returned to a caller". -/
theorem idle_timer_survives_acquire :
    (∀ (b : Nat) (s : PoolState),
      (scheduleIdleCheck b s).idleTimeouts = s.idleTimeouts) ∧
    ((acquire (fun _ => true) true
        (release (some 5) true true false false true
          { initState 3 1 with busyBrowsers := [5] })).1 = TaskPC.gotBrowser 5 ∧
      (release (some 5) true true false false true
        { initState 3 1 with busyBrowsers := [5] }).pendingIdleChecks = [(0, 5)] ∧
      (acquire (fun _ => true) true
        (release (some 5) true true false false true
          { initState 3 1 with busyBrowsers := [5] })).2.pendingIdleChecks
        = [(0, 5)] ∧
      (release (some 5) true true false false true
        { initState 3 1 with busyBrowsers := [5] }).idleTimeouts = []) := by
  constructor
  · intro b s
    rfl
  · decide

/-- C10: the idle-reclaim callback destroys its worker only when the worker
is still in `availableBrowsers` at firing time AND the pool is above
`minPoolSize`; when the worker is absent (it was reacquired into `busy` or
already removed) or the pool is at/below the floor, the state is returned
entirely unchanged — an uncancelled timer can never destroy a reacquired
worker. -/
theorem idleCheckFire_guard :
    ∀ (b : Nat) (cD cF : Bool) (s : PoolState),
      (b ∉ s.availableBrowsers → idleCheckFire b cD cF s = s) ∧
      (s.availableBrowsers.length ≤ s.minPoolSize → idleCheckFire b cD cF s = s) ∧
      (b ∈ s.availableBrowsers → s.minPoolSize < s.availableBrowsers.length →
        (idleCheckFire b cD cF s).destroyedTrace = s.destroyedTrace ++ [b] ∧
        (idleCheckFire b cD cF s).availableBrowsers.length + 1
          = s.availableBrowsers.length) := by
  intro b cD cF s
  refine ⟨?_, ?_, ?_⟩
  · intro hnb
    have hidx : s.availableBrowsers.indexOf b = s.availableBrowsers.length :=
      List.indexOf_eq_length.mpr hnb
    simp [idleCheckFire, hidx]
  · intro hle
    have hcond : ¬ (s.availableBrowsers.indexOf b < s.availableBrowsers.length ∧
        s.minPoolSize < s.availableBrowsers.length) :=
      fun h => absurd h.2 (Nat.not_lt.mpr hle)
    simp [idleCheckFire, if_neg hcond]
  · intro hmem hgt
    have hidx : s.availableBrowsers.indexOf b < s.availableBrowsers.length :=
      List.indexOf_lt_length.mpr hmem
    have hlen : (s.availableBrowsers.eraseIdx (s.availableBrowsers.indexOf b)).length + 1
        = s.availableBrowsers.length :=
      List.length_eraseIdx_add_one hidx
    constructor
    · simp [idleCheckFire, hidx, hgt, destroyBrowser_destroyedTrace]
    · simp only [idleCheckFire, hidx, hgt, and_self, if_pos,
        destroyBrowser_availableBrowsers, hlen]

/-- C10 witness: with `availableBrowsers = [2, 3]` and `minPoolSize = 1`, a
stale timer firing for the absent worker `9` changes nothing, and a timer
firing for the present worker `2` destroys it and shrinks `available`. -/
theorem idleCheckFire_guard_witness :
    (idleCheckFire 9 true false { initState 3 1 with availableBrowsers := [2, 3] }
        = { initState 3 1 with availableBrowsers := [2, 3] }) ∧
    ((idleCheckFire 2 true false
          { initState 3 1 with availableBrowsers := [2, 3] }).destroyedTrace
        = [2] ∧
      (idleCheckFire 2 true false
          { initState 3 1 with availableBrowsers := [2, 3] }).availableBrowsers.length + 1
        = 2) :=
  ⟨(idleCheckFire_guard 9 true false
      { initState 3 1 with availableBrowsers := [2, 3] }).1 (by decide),
   (idleCheckFire_guard 2 true false
      { initState 3 1 with availableBrowsers := [2, 3] }).2.2 (by decide) (by decide)⟩

end BrowserPool
